import Mathlib

/-!
Formal model of the LibreChat query-result cache.

Source files modelled (shallow embedding, JavaScript translated to Lean):
  * api/cache/queryCache.js — key derivation (`createQueryCacheKey`),
    the cache accessor (`getCachedQuery`, `setCachedQuery`, `clearQueryCache`);
  * api/server/middleware/queryCache.js — the request-phase interceptor
    (`queryCacheMiddleware`) and the response-phase interceptor
    (`cacheResponseMiddleware`, modelled by `cacheResponseOnJson`).

Modelling conventions:
  * JavaScript runtime values that the cache inspects are modelled by the
    inductive `JSValue` (primitives, plus an opaque stand-in for objects —
    the cache never looks inside a cached payload, it only tests truthiness
    and strict equality with `undefined`).
  * The external TTL key-value store obtained through
    `getLogStores('QUERY_RESULTS')` is an out-of-scope collaborator; it is
    modelled as explicit state (`Store`): an association list from keys to
    entries plus a `fails` flag.  When `fails` is set every store operation
    raises (returns `Except.error`), which models a thrown store exception.
    TTL expiry is owned by the external store and never observed by the
    code under verification, so the model records but does not age entries.
  * `new Date().toISOString()` is modelled by threading the current
    timestamp string (`now`) as an explicit argument.
  * Node's `crypto.createHash('sha256')` is given a full executable
    implementation (`sha256Hex` below), verified against the standard FIPS
    180-4 test vectors, so that key derivation is computable inside Lean.
  * `async` functions cannot reject anywhere in this code (every `await`
    sits inside `try`/`catch`), so they are modelled as total functions.
-/

namespace LibreChatQueryCache

/-- A JavaScript runtime value, restricted to what the query cache ever
inspects: the primitives, and `obj` as an opaque stand-in for any object or
array value (always truthy, compared only by identity of its tag; the cache
treats cached payloads as opaque). -/
inductive JSValue where
  | undefined : JSValue
  | null : JSValue
  | bool : Bool → JSValue
  | num : Int → JSValue
  | str : String → JSValue
  | obj : String → JSValue
deriving DecidableEq

/-- JavaScript truthiness: `undefined`, `null`, `false`, `0` and `""` are
falsy; every other modelled value is truthy. -/
def jsTruthy : JSValue → Bool
  | JSValue.undefined => false
  | JSValue.null => false
  | JSValue.bool b => b
  | JSValue.num n => n != 0
  | JSValue.str s => s != ""
  | JSValue.obj _ => true

/-- JavaScript `a || b`: the first operand if truthy, otherwise the second. -/
def jsOr (a b : JSValue) : JSValue :=
  if jsTruthy a then a else b

/-- The characters removed by JavaScript `String.prototype.trim` (ECMAScript
WhiteSpace and LineTerminator code points). -/
def jsWhitespaceChars : List Char :=
  [' ', '\t', '\n', '\r', '\x0b', '\x0c', '\xa0', '\u1680',
   '\u2000', '\u2001', '\u2002', '\u2003', '\u2004', '\u2005',
   '\u2006', '\u2007', '\u2008', '\u2009', '\u200a',
   '\u2028', '\u2029', '\u202f', '\u205f', '\u3000', '\ufeff']

/-- Whether a character is JavaScript whitespace. -/
def isJsWhitespace (c : Char) : Bool :=
  jsWhitespaceChars.contains c

/-- JavaScript `s.trim()`: strip leading and trailing whitespace. -/
def jsTrim (s : String) : String :=
  ⟨((s.data.dropWhile isJsWhitespace).reverse.dropWhile isJsWhitespace).reverse⟩

/-! SHA-256 (FIPS 180-4), executable over `Nat` with explicit reduction
modulo `2 ^ 32`.  This models Node's
`crypto.createHash('sha256').update(fullText).digest('hex')`. -/

/-- `2 ^ 32`, the modulus for 32-bit words. -/
def M32 : Nat := 4294967296

/-- Right rotation of a 32-bit word. -/
def rotr32 (n x : Nat) : Nat := ((x >>> n) ||| (x <<< (32 - n))) % M32

/-- Logical right shift. -/
def shr32 (n x : Nat) : Nat := x >>> n

/-- 32-bit modular addition. -/
def add32 (a b : Nat) : Nat := (a + b) % M32

/-- Σ0 of the compression function. -/
def bigSigma0 (x : Nat) : Nat := rotr32 2 x ^^^ rotr32 13 x ^^^ rotr32 22 x

/-- Σ1 of the compression function. -/
def bigSigma1 (x : Nat) : Nat := rotr32 6 x ^^^ rotr32 11 x ^^^ rotr32 25 x

/-- σ0 of the message schedule. -/
def smallSigma0 (x : Nat) : Nat := rotr32 7 x ^^^ rotr32 18 x ^^^ shr32 3 x

/-- σ1 of the message schedule. -/
def smallSigma1 (x : Nat) : Nat := rotr32 17 x ^^^ rotr32 19 x ^^^ shr32 10 x

/-- Ch(x, y, z) = (x ∧ y) ⊕ (¬x ∧ z), with ¬ as XOR against the all-ones
32-bit word. -/
def chFn (x y z : Nat) : Nat := (x &&& y) ^^^ ((x ^^^ 4294967295) &&& z)

/-- Maj(x, y, z). -/
def majFn (x y z : Nat) : Nat := (x &&& y) ^^^ (x &&& z) ^^^ (y &&& z)

/-- The 64 SHA-256 round constants (decimal form of the FIPS 180-4 table). -/
def sha256K : List Nat :=
  [1116352408, 1899447441, 3049323471, 3921009573, 961987163,
   1508970993, 2453635748, 2870763221, 3624381080, 310598401,
   607225278, 1426881987, 1925078388, 2162078206, 2614888103,
   3248222580, 3835390401, 4022224774, 264347078, 604807628,
   770255983, 1249150122, 1555081692, 1996064986, 2554220882,
   2821834349, 2952996808, 3210313671, 3336571891, 3584528711,
   113926993, 338241895, 666307205, 773529912, 1294757372,
   1396182291, 1695183700, 1986661051, 2177026350, 2456956037,
   2730485921, 2820302411, 3259730800, 3345764771, 3516065817,
   3600352804, 4094571909, 275423344, 430227734, 506948616,
   659060556, 883997877, 958139571, 1322822218, 1537002063,
   1747873779, 1955562222, 2024104815, 2227730452, 2361852424,
   2428436474, 2756734187, 3204031479, 3329325298]

/-- The initial SHA-256 hash state (decimal form of the FIPS 180-4 values). -/
def sha256H0 : List Nat :=
  [1779033703, 3144134277, 1013904242, 2773480762,
   1359893119, 2600822924, 528734635, 1541459225]

/-- UTF-8 encoding of one Unicode code point, as byte values. -/
def utf8EncodeChar (c : Nat) : List Nat :=
  if c < 0x80 then [c]
  else if c < 0x800 then [0xc0 ||| (c >>> 6), 0x80 ||| (c &&& 0x3f)]
  else if c < 0x10000 then
    [0xe0 ||| (c >>> 12), 0x80 ||| ((c >>> 6) &&& 0x3f), 0x80 ||| (c &&& 0x3f)]
  else
    [0xf0 ||| (c >>> 18), 0x80 ||| ((c >>> 12) &&& 0x3f),
     0x80 ||| ((c >>> 6) &&& 0x3f), 0x80 ||| (c &&& 0x3f)]

/-- The UTF-8 bytes of a string (what `hash.update(fullText)` consumes). -/
def strUtf8 (s : String) : List Nat :=
  s.data.foldr (fun c acc => utf8EncodeChar c.toNat ++ acc) []

/-- The low `k` bytes of `n`, big-endian. -/
def natBytesBE : Nat → Nat → List Nat
  | 0, _ => []
  | k + 1, n => (n >>> (8 * k)) % 256 :: natBytesBE k n

/-- SHA-256 padding: a `0x80` byte, zero bytes up to 56 mod 64, then the
64-bit big-endian bit length of the message. -/
def sha256Pad (msg : List Nat) : List Nat :=
  let len := msg.length
  let zeros := (119 - len % 64) % 64
  msg ++ [0x80] ++ List.replicate zeros 0 ++ natBytesBE 8 (8 * len)

/-- Group bytes into 32-bit big-endian words, four bytes per word. -/
def bytesToWords : List Nat → List Nat
  | b0 :: b1 :: b2 :: b3 :: rest =>
      (((b0 <<< 8 ||| b1) <<< 8 ||| b2) <<< 8 ||| b3) :: bytesToWords rest
  | _ => []

/-- Split a word list into 16-word blocks; the first argument is fuel and is
instantiated with the list length. -/
def blocksOf16 : Nat → List Nat → List (List Nat)
  | 0, _ => []
  | _, [] => []
  | fuel + 1, ws => ws.take 16 :: blocksOf16 fuel (ws.drop 16)

/-- Extend a 16-word message block to the 64-word schedule (48 steps). -/
def scheduleExtend : Nat → Array Nat → Array Nat
  | 0, w => w
  | fuel + 1, w =>
    let n := w.size
    let x := (smallSigma1 (w.getD (n - 2) 0) + w.getD (n - 7) 0 +
              smallSigma0 (w.getD (n - 15) 0) + w.getD (n - 16) 0) % M32
    scheduleExtend fuel (w.push x)

/-- The eight 32-bit words of the hash state. -/
abbrev Hash8 := Nat × Nat × Nat × Nat × Nat × Nat × Nat × Nat

/-- One SHA-256 compression round, consuming one (round constant, schedule
word) pair. -/
def sha256Round (st : Hash8) (kw : Nat × Nat) : Hash8 :=
  let (a, b, c, d, e, f, g, h) := st
  let t1 := (h + bigSigma1 e + chFn e f g + kw.1 + kw.2) % M32
  let t2 := (bigSigma0 a + majFn a b c) % M32
  ((t1 + t2) % M32, a, b, c, (d + t1) % M32, e, f, g)

/-- Compress one 512-bit block into the running hash state. -/
def sha256Compress (st : Hash8) (block : List Nat) : Hash8 :=
  let w := (scheduleExtend 48 (List.toArray block)).toList
  let (a, b, c, d, e, f, g, h) := (sha256K.zip w).foldl sha256Round st
  let (a0, b0, c0, d0, e0, f0, g0, h0) := st
  (add32 a a0, add32 b b0, add32 c c0, add32 d d0,
   add32 e e0, add32 f f0, add32 g g0, add32 h h0)

/-- The hash state as a list of eight words. -/
def hash8ToList (st : Hash8) : List Nat :=
  let (a, b, c, d, e, f, g, h) := st
  [a, b, c, d, e, f, g, h]

/-- A list of (at least) eight words as a hash state. -/
def listToHash8 (l : List Nat) : Hash8 :=
  (l.getD 0 0, l.getD 1 0, l.getD 2 0, l.getD 3 0,
   l.getD 4 0, l.getD 5 0, l.getD 6 0, l.getD 7 0)

/-- The SHA-256 digest of a byte list, as eight 32-bit words. -/
def sha256Digest (msg : List Nat) : List Nat :=
  let ws := bytesToWords (sha256Pad msg)
  hash8ToList ((blocksOf16 ws.length ws).foldl sha256Compress (listToHash8 sha256H0))

/-- Lowercase hexadecimal digit for a nibble. -/
def hexDigit (n : Nat) : Char :=
  if n < 10 then Char.ofNat (48 + n) else Char.ofNat (87 + n)

/-- A 32-bit word as eight lowercase hex characters. -/
def wordHex (n : Nat) : List Char :=
  [hexDigit ((n >>> 28) % 16), hexDigit ((n >>> 24) % 16),
   hexDigit ((n >>> 20) % 16), hexDigit ((n >>> 16) % 16),
   hexDigit ((n >>> 12) % 16), hexDigit ((n >>> 8) % 16),
   hexDigit ((n >>> 4) % 16), hexDigit (n % 16)]

/-- Lowercase hexadecimal SHA-256 digest of the UTF-8 bytes of a string:
`crypto.createHash('sha256').update(s).digest('hex')`. -/
def sha256Hex (s : String) : String :=
  ⟨(sha256Digest (strUtf8 s)).foldr (fun w acc => wordHex w ++ acc) []⟩

/-! The cache module, api/cache/queryCache.js. -/

/-- `Time.TEN_MINUTES` from librechat-data-provider: the default TTL,
ten minutes in milliseconds. -/
def TEN_MINUTES : Nat := 600000

/-- `createQueryCacheKey(queryText, userId = '')`:
the template literal `${userId}:${queryText}` hashed with SHA-256, hex
encoded, truncated to the first 32 characters. -/
def createQueryCacheKey (queryText : String) (userId : String) : String :=
  (sha256Hex (userId ++ ":" ++ queryText)).take 32

/-- The object written to the store by `setCachedQuery`:
`{ result, query: queryText, timestamp, userId }`. -/
structure Entry where
  result : JSValue
  query : String
  timestamp : String
  userId : String
deriving DecidableEq

/-- The external TTL store behind `getLogStores('QUERY_RESULTS')`: an
association list from cache keys to entries (newest first, so a repeated
write shadows the older entry), plus a `fails` flag — when set, every store
operation throws, modelling store connectivity/serialization failures.
TTL expiry is internal to the real store and is not aged by the model. -/
structure Store where
  entries : List (String × Entry)
  fails : Bool
deriving DecidableEq

/-- `queryCache.get(key)`: `Except.error` models a thrown store exception. -/
def storeGet (st : Store) (key : String) : Except String (Option Entry) :=
  if st.fails then Except.error "store unavailable"
  else Except.ok ((st.entries.find? (fun p => p.1 == key)).map Prod.snd)

/-- `queryCache.set(key, value, ttl)`: prepends the new binding (the real
store overwrites; lookups here return the newest binding first).  The TTL is
accepted and delegated to the store, which owns expiry. -/
def storeSet (st : Store) (key : String) (v : Entry) (_ttl : Nat) :
    Except String Store :=
  if st.fails then Except.error "store unavailable"
  else Except.ok { st with entries := (key, v) :: st.entries }

/-- `queryCache.clear()`. -/
def storeClear (st : Store) : Except String Store :=
  if st.fails then Except.error "store unavailable"
  else Except.ok { st with entries := [] }

/-- `getCachedQuery(queryText, userId = '')`.
Guard: `if (!queryText || typeof queryText !== 'string') return null` —
only a non-empty string passes.  Then the key is derived from the trimmed
text, the store is consulted, a truthy result (entries are objects, hence
truthy) is returned, and a thrown store error is caught and turned into
`null` (`none`). -/
def getCachedQuery (st : Store) (queryText : JSValue) (userId : String) :
    Option Entry :=
  match queryText with
  | JSValue.str s =>
      if s = "" then none
      else
        match storeGet st (createQueryCacheKey (jsTrim s) userId) with
        | Except.ok (some result) => some result
        | Except.ok none => none
        | Except.error _ => none
  | _ => none

/-- `setCachedQuery(queryText, result, userId = '', ttl = Time.TEN_MINUTES)`.
Guard: `if (!queryText || typeof queryText !== 'string' ||
result === undefined) return false`.  On success the entry
`{ result, query: queryText, timestamp, userId }` is written under the key
derived from the trimmed text (the stored `query` keeps the original,
untrimmed text) and `true` is returned; a thrown store error is caught and
turned into `false`.  `now` threads `new Date().toISOString()`. -/
def setCachedQuery (st : Store) (now : String) (queryText result : JSValue)
    (userId : String) (ttl : Nat) : Store × Bool :=
  match queryText with
  | JSValue.str s =>
      if s = "" ∨ result = JSValue.undefined then (st, false)
      else
        match storeSet st (createQueryCacheKey (jsTrim s) userId)
            { result := result, query := s, timestamp := now, userId := userId }
            ttl with
        | Except.ok st2 => (st2, true)
        | Except.error _ => (st, false)
  | _ => (st, false)

/-- `clearQueryCache()`: delegate to the store's `clear`, catching any
thrown error and returning `false` for it, `true` otherwise. -/
def clearQueryCache (st : Store) : Store × Bool :=
  match storeClear st with
  | Except.ok st2 => (st2, true)
  | Except.error _ => (st, false)

/-! The middleware, api/server/middleware/queryCache.js. -/

/-- The request body as the middleware sees it: the two fields it reads
(`message` and `query`), each an arbitrary value, `undefined` when the
field is missing. -/
structure ReqBody where
  message : JSValue
  query : JSValue
deriving DecidableEq

/-- The parsed query string as the middleware sees it: the one parameter it
reads (`q`). -/
structure ReqQueryParams where
  q : JSValue
deriving DecidableEq

/-- The authenticated user object; `id` and `mongoId` model the `id` and
`_id` fields, as strings with `""` standing for both the empty string and a
missing field (the two are interchangeable under the `||` fallbacks the
middleware applies). -/
structure ReqUser where
  id : String
  mongoId : String
deriving DecidableEq

/-- An inbound request: `body`, the parsed query string (`req.query`), the
optional authenticated user, and the two fields the request-phase
interceptor may attach for the response-phase interceptor (`req.userQuery`,
`req.userId`), `none` when unset. -/
structure Request where
  body : Option ReqBody
  query : Option ReqQueryParams
  user : Option ReqUser
  userQuery : Option String
  userId : Option String
deriving DecidableEq

/-- `req.body?.message`: `undefined` when the body is missing. -/
def reqBodyMessage (req : Request) : JSValue :=
  match req.body with
  | some b => b.message
  | none => JSValue.undefined

/-- `req.body?.query`. -/
def reqBodyQuery (req : Request) : JSValue :=
  match req.body with
  | some b => b.query
  | none => JSValue.undefined

/-- `req.query?.q`. -/
def reqQueryQ (req : Request) : JSValue :=
  match req.query with
  | some p => p.q
  | none => JSValue.undefined

/-- `req.body?.message || req.body?.query || req.query?.q`. -/
def extractUserQuery (req : Request) : JSValue :=
  jsOr (jsOr (reqBodyMessage req) (reqBodyQuery req)) (reqQueryQ req)

/-- `req.user?.id || req.user?._id || ''`. -/
def extractUserId (req : Request) : String :=
  match req.user with
  | none => ""
  | some u => if u.id ≠ "" then u.id else if u.mongoId ≠ "" then u.mongoId else ""

/-- The observable outcome of the request-phase interceptor: either a direct
response (`res.status(status).json({ success, data, cached, timestamp })`,
short-circuiting the pipeline) or a call to `next` with the possibly
augmented request. -/
inductive MiddlewareResult where
  | respond (status : Nat) (success : Bool) (data : JSValue) (cached : Bool)
      (timestamp : String) : MiddlewareResult
  | next (req : Request) : MiddlewareResult
deriving DecidableEq

/-- `queryCacheMiddleware(req, res, next)`.
Extracts `userQuery` and `userId`; bypasses (`next()`) unless `userQuery`
is a truthy string; on a cache hit answers directly with
`res.status(200).json({ success: true, data: cachedResult.result,
cached: true, timestamp: cachedResult.timestamp })`; on a miss attaches
`req.userQuery` and `req.userId` and calls `next()`.  The `catch` branch
(also a plain `next()`) is unreachable here because the modelled
`getCachedQuery` is total. -/
def queryCacheMiddleware (st : Store) (req : Request) : MiddlewareResult :=
  let userQuery := extractUserQuery req
  let userId := extractUserId req
  match userQuery with
  | JSValue.str s =>
      if s = "" then MiddlewareResult.next req
      else
        match getCachedQuery st (JSValue.str s) userId with
        | some cachedResult =>
            MiddlewareResult.respond 200 true cachedResult.result true
              cachedResult.timestamp
        | none =>
            MiddlewareResult.next
              { req with userQuery := some s, userId := some userId }
  | _ => MiddlewareResult.next req

/-- A response body as observed by the wrapped `res.json(body)`: `none`
models a nullish body, otherwise the one field the interceptor reads
(`data`). -/
structure ResponseBody where
  data : JSValue
deriving DecidableEq

/-- `body?.data`. -/
def respBodyData (body : Option ResponseBody) : JSValue :=
  match body with
  | some b => b.data
  | none => JSValue.undefined

/-- `cacheResponseMiddleware(req, res, next)`, observed at the moment the
wrapped `res.json(body)` runs with `res.statusCode` set.  When
`req.userQuery` is falsy the middleware never wrapped `res.json`, so no
write can be initiated.  Otherwise a fire-and-forget
`setCachedQuery(req.userQuery, body.data, req.userId || '')` is initiated
exactly when `res.statusCode === 200 && body?.data` holds (its own failures
are contained by `setCachedQuery` and the attached `.catch`).  Returns the
store after the write together with whether a write was initiated; the
response body itself is always passed through unmodified to the original
`res.json`. -/
def cacheResponseOnJson (st : Store) (now : String) (req : Request)
    (statusCode : Nat) (body : Option ResponseBody) : Store × Bool :=
  match req.userQuery with
  | none => (st, false)
  | some q =>
      if q = "" then (st, false)
      else if statusCode = 200 ∧ jsTruthy (respBodyData body) = true then
        ((setCachedQuery st now (JSValue.str q) (respBodyData body)
            ((req.userId).getD "") TEN_MINUTES).1, true)
      else (st, false)

/-! Helper lemmas shared by the claim theorems. -/

set_option maxRecDepth 10000

/-- The derived key depends only on the colon-joined concatenation
`userId ++ ":" ++ queryText`. -/
theorem createQueryCacheKey_congr (q u q2 u2 : String)
    (h : u ++ ":" ++ q = u2 ++ ":" ++ q2) :
    createQueryCacheKey q u = createQueryCacheKey q2 u2 := by
  unfold createQueryCacheKey
  rw [h]

/-- A successful `setCachedQuery` on a non-empty string with a defined
result and a healthy store prepends exactly one entry. -/
theorem setCachedQuery_success (st : Store) (now q : String) (r : JSValue)
    (uid : String) (ttl : Nat)
    (hq : q ≠ "") (hr : r ≠ JSValue.undefined) (hf : st.fails = false) :
    setCachedQuery st now (JSValue.str q) r uid ttl =
      ({ entries := (createQueryCacheKey (jsTrim q) uid,
            { result := r, query := q, timestamp := now, userId := uid })
            :: st.entries,
         fails := st.fails }, true) := by
  unfold setCachedQuery storeSet
  simp [hq, hr, hf]

/-- If `setCachedQuery` on a string reports success, then the text was
non-empty, the result was defined, and the store was healthy. -/
theorem setCachedQuery_success_inv (st : Store) (now q : String) (r : JSValue)
    (uid : String) (ttl : Nat)
    (h : (setCachedQuery st now (JSValue.str q) r uid ttl).2 = true) :
    q ≠ "" ∧ r ≠ JSValue.undefined ∧ st.fails = false := by
  unfold setCachedQuery storeSet at h
  by_cases hq : q = "" <;> by_cases hr : r = JSValue.undefined <;>
    by_cases hf : st.fails <;> simp_all

/-- A lookup whose derived key matches the newest entry returns that
entry. -/
theorem getCachedQuery_cons_hit (k : String) (e : Entry)
    (rest : List (String × Entry)) (q2 uid : String)
    (hq2 : q2 ≠ "") (hk : k = createQueryCacheKey (jsTrim q2) uid) :
    getCachedQuery { entries := (k, e) :: rest, fails := false }
      (JSValue.str q2) uid = some e := by
  unfold getCachedQuery storeGet
  simp [hq2, List.find?, hk]

/-- A lookup against a single-entry store whose key differs from the derived
key misses. -/
theorem getCachedQuery_single_miss (k : String) (e : Entry) (q2 uid : String)
    (hq2 : q2 ≠ "") (hk : createQueryCacheKey (jsTrim q2) uid ≠ k) :
    getCachedQuery { entries := [(k, e)], fails := false }
      (JSValue.str q2) uid = none := by
  have hb : (k == createQueryCacheKey (jsTrim q2) uid) = false :=
    beq_eq_false_iff_ne.mpr (Ne.symm hk)
  unfold getCachedQuery storeGet
  simp [hq2, List.find?, hb]

/-! The claims. -/

/-- C1 (counterexample): the claim that the colon separator makes the
pre-hash concatenation unambiguous is false on the code: the pair
scope = "a:b", queryText = "c" and the pair scope = "a", queryText = "b:c"
concatenate to the same full text "a:b:c" and therefore yield the SAME key,
although their trimmed query texts differ. -/
theorem c1_colon_separator_counterexample :
    createQueryCacheKey "c" "a:b" = createQueryCacheKey "b:c" "a"
    ∧ jsTrim "c" ≠ jsTrim "b:c" := by
  exact ⟨createQueryCacheKey_congr "c" "a:b" "b:c" "a" (by decide), by decide⟩

/-- C1 (amended): identical colon-joined concatenations
`scope:queryText` always produce the identical key — so identical
(scope, trimmed queryText) pairs produce identical keys, and two pairs
produce different keys (apart from hash collisions) only when their
concatenations differ; the fixed colon separator does NOT make the
concatenation unambiguous, so scope = "a:b", queryText = "c" and
scope = "a", queryText = "b:c" yield the SAME key; pairs whose
concatenations differ do get different keys in the spec's own example
(the two fiscal-year query texts). -/
theorem c1_key_from_concatenation :
    (∀ q u q2 u2 : String, u ++ ":" ++ q = u2 ++ ":" ++ q2 →
        createQueryCacheKey q u = createQueryCacheKey q2 u2)
    ∧ createQueryCacheKey "c" "a:b" = createQueryCacheKey "b:c" "a"
    ∧ createQueryCacheKey "balances by branch" "" ≠
        createQueryCacheKey "balances by branch and fiscal year 2015" "" := by
  refine ⟨fun q u q2 u2 h => createQueryCacheKey_congr q u q2 u2 h,
    createQueryCacheKey_congr "c" "a:b" "b:c" "a" (by decide), by decide⟩

/-- C1 (witness): the amended theorem applied at the ambiguous pair. -/
theorem c1_key_from_concatenation_witness :
    createQueryCacheKey "c" "a:b" = createQueryCacheKey "b:c" "a" :=
  c1_key_from_concatenation.1 "c" "a:b" "b:c" "a" (by decide)

/-- C2 (counterexample): the claim quantifies over every string that trims
to the same text as the stored query; it fails when the stored query is the
(non-empty) single-space string and the probe is the empty string: the
write succeeds and the two texts trim identically, yet the lookup returns
`none` because the empty probe is rejected by the truthiness guard. -/
theorem c2_trim_roundtrip_counterexample :
    (setCachedQuery { entries := [], fails := false }
        "2024-01-01T00:00:00.000Z" (JSValue.str " ") (JSValue.num 1) ""
        TEN_MINUTES).2 = true
    ∧ jsTrim "" = jsTrim " "
    ∧ getCachedQuery
        (setCachedQuery { entries := [], fails := false }
          "2024-01-01T00:00:00.000Z" (JSValue.str " ") (JSValue.num 1) ""
          TEN_MINUTES).1
        (JSValue.str "") "" = none := by
  refine ⟨by decide, by decide, by decide⟩

/-- C2 (amended): for every non-empty string query q, result r and scope s,
after setCachedQuery(q, r, s) succeeds, getCachedQuery applied to any
NON-EMPTY string that trims (leading/trailing whitespace) to the same text
as q, with the same scope s, returns an Entry whose result field equals r
and whose query field equals the original untrimmed string passed to
setCachedQuery. -/
theorem c2_trim_roundtrip (st : Store) (now q q2 uid : String) (r : JSValue)
    (ttl : Nat)
    (hset : (setCachedQuery st now (JSValue.str q) r uid ttl).2 = true)
    (hq2 : q2 ≠ "") (htrim : jsTrim q2 = jsTrim q) :
    getCachedQuery (setCachedQuery st now (JSValue.str q) r uid ttl).1
      (JSValue.str q2) uid =
      some { result := r, query := q, timestamp := now, userId := uid } := by
  obtain ⟨hq, hr, hf⟩ := setCachedQuery_success_inv st now q r uid ttl hset
  rw [setCachedQuery_success st now q r uid ttl hq hr hf, hf]
  exact getCachedQuery_cons_hit _ _ _ q2 uid hq2 (by rw [htrim])

/-- C2 (witness): the amended theorem at the spec's round-trip scenario,
with extra surrounding whitespace on the probe. -/
theorem c2_trim_roundtrip_witness :
    getCachedQuery
      (setCachedQuery { entries := [], fails := false }
        "2024-01-01T00:00:00.000Z" (JSValue.str "Show balances by branch")
        (JSValue.obj "rows:[1,2,3]") "" TEN_MINUTES).1
      (JSValue.str "  Show balances by branch  ") "" =
      some { result := JSValue.obj "rows:[1,2,3]",
             query := "Show balances by branch",
             timestamp := "2024-01-01T00:00:00.000Z", userId := "" } :=
  c2_trim_roundtrip { entries := [], fails := false }
    "2024-01-01T00:00:00.000Z" "Show balances by branch"
    "  Show balances by branch  " "" (JSValue.obj "rows:[1,2,3]") TEN_MINUTES
    (by decide) (by decide) (by decide)

/-- C3: when the underlying store operation raises, getCachedQuery returns
null (`none`), setCachedQuery returns false, and clearQueryCache returns
false; each is a total function of its inputs, so no store exception ever
propagates to the caller, and the store state is left untouched by the
failed set and clear. -/
theorem c3_store_error_contained (st : Store) (q r : JSValue)
    (uid now : String) (ttl : Nat) (hfail : st.fails = true) :
    getCachedQuery st q uid = none
    ∧ setCachedQuery st now q r uid ttl = (st, false)
    ∧ clearQueryCache st = (st, false) := by
  refine ⟨?_, ?_, ?_⟩
  · cases q <;> unfold getCachedQuery storeGet <;> simp [hfail]
  · cases q <;> unfold setCachedQuery storeSet <;> simp [hfail]
  · unfold clearQueryCache storeClear
    simp [hfail]

/-- C3 (witness): a failing store at a concrete query. -/
theorem c3_store_error_contained_witness :
    getCachedQuery { entries := [], fails := true } (JSValue.str "q") "" = none
    ∧ setCachedQuery { entries := [], fails := true } "ts" (JSValue.str "q")
        (JSValue.num 1) "" TEN_MINUTES = ({ entries := [], fails := true }, false)
    ∧ clearQueryCache { entries := [], fails := true } =
        ({ entries := [], fails := true }, false) :=
  c3_store_error_contained { entries := [], fails := true } (JSValue.str "q")
    (JSValue.num 1) "" "ts" TEN_MINUTES (by decide)

/-- C4: when the extracted query identity is already cached, the
request-phase interceptor responds directly with status 200, success, the
cached result, cached = true and the stored write timestamp, and never
calls the downstream handler (`next`). -/
theorem c4_hit_short_circuit (st : Store) (req : Request) (s : String)
    (e : Entry)
    (hq : extractUserQuery req = JSValue.str s) (hs : s ≠ "")
    (hhit : getCachedQuery st (JSValue.str s) (extractUserId req) = some e) :
    queryCacheMiddleware st req =
      MiddlewareResult.respond 200 true e.result true e.timestamp
    ∧ ∀ req2 : Request,
        queryCacheMiddleware st req ≠ MiddlewareResult.next req2 := by
  have hmain : queryCacheMiddleware st req =
      MiddlewareResult.respond 200 true e.result true e.timestamp := by
    unfold queryCacheMiddleware
    rw [hq]
    simp [hs, hhit]
  exact ⟨hmain, fun req2 h => by rw [hmain] at h; exact MiddlewareResult.noConfusion h⟩

/-- C4 (witness): a request whose body message is already cached is
answered from the cache. -/
theorem c4_hit_short_circuit_witness :
    queryCacheMiddleware
      (setCachedQuery { entries := [], fails := false }
        "2024-01-01T00:00:00.000Z" (JSValue.str "hello")
        (JSValue.obj "rows:[1,2,3]") "" TEN_MINUTES).1
      { body := some { message := JSValue.str "hello",
                       query := JSValue.undefined },
        query := none, user := none, userQuery := none, userId := none } =
      MiddlewareResult.respond 200 true (JSValue.obj "rows:[1,2,3]") true
        "2024-01-01T00:00:00.000Z" :=
  (c4_hit_short_circuit
    (setCachedQuery { entries := [], fails := false }
      "2024-01-01T00:00:00.000Z" (JSValue.str "hello")
      (JSValue.obj "rows:[1,2,3]") "" TEN_MINUTES).1
    { body := some { message := JSValue.str "hello",
                     query := JSValue.undefined },
      query := none, user := none, userQuery := none, userId := none }
    "hello"
    { result := JSValue.obj "rows:[1,2,3]", query := "hello",
      timestamp := "2024-01-01T00:00:00.000Z", userId := "" }
    (by decide) (by decide) (by decide)).1

/-- C5: with a pending-cache marker present, a response whose status is not
200 or whose body lacks a truthy data field causes no store write: the
store is unchanged and no setCachedQuery call is initiated; in particular a
status-500 response never produces a cache write. -/
theorem c5_no_write_on_unqualified_response (st : Store) (now : String)
    (req : Request) (statusCode : Nat) (body : Option ResponseBody)
    (h : statusCode ≠ 200 ∨ jsTruthy (respBodyData body) = false) :
    cacheResponseOnJson st now req statusCode body = (st, false) := by
  have hc : ¬ (statusCode = 200 ∧ jsTruthy (respBodyData body) = true) := by
    rcases h with h | h
    · exact fun hcon => h hcon.1
    · exact fun hcon => by rw [h] at hcon; exact Bool.false_ne_true hcon.2
  unfold cacheResponseOnJson
  cases hm : req.userQuery with
  | none => rfl
  | some q =>
      by_cases hq : q = "" <;> simp [hq, hc]

/-- C5 (witness): a 500 response with a qualifying marker and a truthy data
field writes nothing. -/
theorem c5_no_write_on_unqualified_response_witness :
    cacheResponseOnJson { entries := [], fails := false } "ts"
      { body := none, query := none, user := none,
        userQuery := some "Show balances by branch", userId := some "userA" }
      500 (some { data := JSValue.obj "rows:[1,2,3]" }) =
      ({ entries := [], fails := false }, false) :=
  c5_no_write_on_unqualified_response { entries := [], fails := false } "ts"
    { body := none, query := none, user := none,
      userQuery := some "Show balances by branch", userId := some "userA" }
    500 (some { data := JSValue.obj "rows:[1,2,3]" }) (Or.inl (by decide))

/-- C6: the request-phase interceptor extracts the query text by trying
body "message", then body "query", then query-string "q", taking the first
truthy (non-empty) value; and when no candidate yields a usable (truthy
string) value the interceptor passes the request downstream unchanged — no
marker is attached and, since the conclusion holds for every store alike,
no cache read is observable. -/
theorem c6_extraction_priority_and_bypass (st : Store) (req : Request) :
    (jsTruthy (reqBodyMessage req) = true →
        extractUserQuery req = reqBodyMessage req)
    ∧ (jsTruthy (reqBodyMessage req) = false →
        jsTruthy (reqBodyQuery req) = true →
        extractUserQuery req = reqBodyQuery req)
    ∧ (jsTruthy (reqBodyMessage req) = false →
        jsTruthy (reqBodyQuery req) = false →
        extractUserQuery req = reqQueryQ req)
    ∧ ((∀ s : String, extractUserQuery req = JSValue.str s → s = "") →
        queryCacheMiddleware st req = MiddlewareResult.next req) := by
  refine ⟨?_, ?_, ?_, ?_⟩
  · intro h1
    unfold extractUserQuery jsOr
    simp [h1]
  · intro h1 h2
    unfold extractUserQuery jsOr
    simp [h1, h2]
  · intro h1 h2
    unfold extractUserQuery jsOr
    simp [h1, h2]
  · intro h
    unfold queryCacheMiddleware
    cases hE : extractUserQuery req with
    | str s =>
        have hs : s = "" := h s hE
        simp [hs]
    | undefined => rfl
    | null => rfl
    | bool b => rfl
    | num n => rfl
    | obj t => rfl

/-- C6 (witness): body "message" wins over a non-empty body "query", and a
request offering no usable query text passes through unchanged. -/
theorem c6_extraction_priority_and_bypass_witness :
    extractUserQuery
      { body := some { message := JSValue.str "show balances",
                       query := JSValue.str "other" },
        query := some { q := JSValue.str "third" },
        user := none, userQuery := none, userId := none } =
      JSValue.str "show balances"
    ∧ queryCacheMiddleware { entries := [], fails := false }
        { body := none, query := none, user := none,
          userQuery := none, userId := none } =
        MiddlewareResult.next
          { body := none, query := none, user := none,
            userQuery := none, userId := none } :=
  ⟨((c6_extraction_priority_and_bypass { entries := [], fails := false }
      { body := some { message := JSValue.str "show balances",
                       query := JSValue.str "other" },
        query := some { q := JSValue.str "third" },
        user := none, userQuery := none, userId := none }).1
      (by decide)).trans (by decide),
   (c6_extraction_priority_and_bypass { entries := [], fails := false }
      { body := none, query := none, user := none,
        userQuery := none, userId := none }).2.2.2
      (fun s h => JSValue.noConfusion
        ((by decide : extractUserQuery
            { body := none, query := none, user := none,
              userQuery := none, userId := none } =
            JSValue.undefined).symm.trans h))⟩

/-- C7: for every queryText that is empty, absent or not a string,
getCachedQuery returns null and setCachedQuery returns false, for every
store alike (so no store access is involved) and with the store returned
unchanged; and setCachedQuery returns false for every queryText whatsoever
when the result is undefined. -/
theorem c7_invalid_inputs_rejected (st : Store) (q q2 r : JSValue)
    (uid now : String) (ttl : Nat)
    (hq : ∀ s : String, q = JSValue.str s → s = "") :
    getCachedQuery st q uid = none
    ∧ setCachedQuery st now q r uid ttl = (st, false)
    ∧ setCachedQuery st now q2 JSValue.undefined uid ttl = (st, false) := by
  refine ⟨?_, ?_, ?_⟩
  · cases hc : q with
    | str s => have hs : s = "" := hq s hc; unfold getCachedQuery; simp [hs]
    | undefined => rfl
    | null => rfl
    | bool b => rfl
    | num n => rfl
    | obj t => rfl
  · cases hc : q with
    | str s => have hs : s = "" := hq s hc; unfold setCachedQuery; simp [hs]
    | undefined => rfl
    | null => rfl
    | bool b => rfl
    | num n => rfl
    | obj t => rfl
  · cases q2 with
    | str _ => unfold setCachedQuery; simp
    | undefined => rfl
    | null => rfl
    | bool b => rfl
    | num n => rfl
    | obj t => rfl

/-- C7 (witness): a null query text is rejected by get and set, and a
defined query text with an undefined result is rejected by set. -/
theorem c7_invalid_inputs_rejected_witness :
    getCachedQuery { entries := [], fails := false } JSValue.null "" = none
    ∧ setCachedQuery { entries := [], fails := false } "ts" JSValue.null
        (JSValue.num 1) "" TEN_MINUTES = ({ entries := [], fails := false }, false)
    ∧ setCachedQuery { entries := [], fails := false } "ts" (JSValue.str "q")
        JSValue.undefined "" TEN_MINUTES = ({ entries := [], fails := false }, false) :=
  c7_invalid_inputs_rejected { entries := [], fails := false } JSValue.null
    (JSValue.str "q") (JSValue.num 1) "" "ts" TEN_MINUTES
    (fun _ h => JSValue.noConfusion h)

/-- C8: createQueryCacheKey is a pure deterministic function of its two
string arguments: it is defined with no state, time or randomness
parameters, so equal arguments always yield the equal key. -/
theorem c8_key_determinism (t u t2 u2 : String) (ht : t = t2) (hu : u = u2) :
    createQueryCacheKey t u = createQueryCacheKey t2 u2 := by
  rw [ht, hu]

/-- C8 (witness): two invocations on the same concrete input agree. -/
theorem c8_key_determinism_witness :
    createQueryCacheKey "Show balances by branch" "userA" =
      createQueryCacheKey "Show balances by branch" "userA" :=
  c8_key_determinism "Show balances by branch" "userA"
    "Show balances by branch" "userA" rfl rfl

/-- C9: after setCachedQuery(q, r1, "userA") on a fresh healthy store, a
getCachedQuery(q, "userB") returns absent while getCachedQuery(q, "userA")
returns an Entry whose result is r1 — scoped entries are invisible across
scopes.  The hypothesis that the two scopes derive different keys is the
spec's own "apart from hash collisions" proviso; the witness discharges it
by computation at the spec's scenario. -/
theorem c9_scope_isolation (q now : String) (r1 : JSValue) (ttl : Nat)
    (hq : q ≠ "") (hr : r1 ≠ JSValue.undefined)
    (hkey : createQueryCacheKey (jsTrim q) "userA" ≠
      createQueryCacheKey (jsTrim q) "userB") :
    getCachedQuery
        (setCachedQuery { entries := [], fails := false } now (JSValue.str q)
          r1 "userA" ttl).1 (JSValue.str q) "userB" = none
    ∧ getCachedQuery
        (setCachedQuery { entries := [], fails := false } now (JSValue.str q)
          r1 "userA" ttl).1 (JSValue.str q) "userA" =
        some { result := r1, query := q, timestamp := now, userId := "userA" } := by
  rw [setCachedQuery_success { entries := [], fails := false } now q r1
    "userA" ttl hq hr rfl]
  exact ⟨getCachedQuery_single_miss _ _ q "userB" hq (Ne.symm hkey),
    getCachedQuery_cons_hit _ _ _ q "userA" hq rfl⟩

/-- C9 (witness): the spec's scenario at q = "q". -/
theorem c9_scope_isolation_witness :
    getCachedQuery
        (setCachedQuery { entries := [], fails := false } "ts" (JSValue.str "q")
          (JSValue.obj "r1") "userA" TEN_MINUTES).1 (JSValue.str "q") "userB" = none
    ∧ getCachedQuery
        (setCachedQuery { entries := [], fails := false } "ts" (JSValue.str "q")
          (JSValue.obj "r1") "userA" TEN_MINUTES).1 (JSValue.str "q") "userA" =
        some { result := JSValue.obj "r1", query := "q", timestamp := "ts",
               userId := "userA" } :=
  c9_scope_isolation "q" "ts" (JSValue.obj "r1") TEN_MINUTES (by decide)
    (by decide) (by decide)

/-- C10: in the response-phase interceptor, once the pending-cache marker is
present (a non-empty req.userQuery), a cache write is initiated if and only
if the response status code is exactly 200 and the body's data field is
truthy — so 201, 204 and every other status write nothing, and a falsy data
field (undefined, null, false, 0, "") writes nothing. -/
theorem c10_write_iff_200_and_truthy_data (st : Store) (now : String)
    (req : Request) (statusCode : Nat) (body : Option ResponseBody)
    (q : String) (hmark : req.userQuery = some q) (hq : q ≠ "") :
    (cacheResponseOnJson st now req statusCode body).2 = true ↔
      (statusCode = 200 ∧ jsTruthy (respBodyData body) = true) := by
  unfold cacheResponseOnJson
  rw [hmark]
  by_cases hc : statusCode = 200 ∧ jsTruthy (respBodyData body) = true <;>
    simp [hq, hc]

/-- C10 (witness): with the marker present, a 200 response with truthy data
initiates a write. -/
theorem c10_write_iff_200_and_truthy_data_witness :
    (cacheResponseOnJson { entries := [], fails := false } "ts"
        { body := none, query := none, user := none,
          userQuery := some "q", userId := some "userA" }
        200 (some { data := JSValue.num 5 })).2 = true ↔
      (200 = 200 ∧ jsTruthy (respBodyData (some { data := JSValue.num 5 })) = true) :=
  c10_write_iff_200_and_truthy_data { entries := [], fails := false } "ts"
    { body := none, query := none, user := none,
      userQuery := some "q", userId := some "userA" }
    200 (some { data := JSValue.num 5 }) "q" (by decide) (by decide)

end LibreChatQueryCache
